import Mathlib

/-!
Verification of the distributed-inference core of llama3-cake: topology
partitioning, wire protocol, client retry policy, cache lifecycle,
orchestrator generation loop, and the CLI entry surface.

Definitions are a shallow embedding of the Rust sources
(src/cake-core/src/cake/mod.rs, src/cake-cli/src/main.rs); components whose
source modules are declared but not present (client, master, proto, topology,
worker) are modelled from the specification, as marked in their doc comments.
-/

namespace Cake

/- ## Data types shared across components -/

/-- Element data types selectable at startup (candle_core::DType members used
by the code: F16, BF16, F32). -/
inductive DType where
  | F16
  | BF16
  | F32
deriving DecidableEq, Repr

/-- Size in bytes of one element of the given data type. -/
def DType.elemSize : DType → Nat
  | .F16 => 2
  | .BF16 => 2
  | .F32 => 4

/- ## Topology (module declared in mod.rs but absent from src/) -/

/-- Modelled from the spec: a node descriptor of the topology configuration —
address, block_range(start, end) with the end exclusive, device_kind
(§3 Data model; the topology module itself is missing from src/). -/
structure NodeDesc where
  address : String
  blockStart : Nat
  blockEnd : Nat
  deviceKind : String
deriving DecidableEq, Repr

/-- Modelled from the spec: the validated topology — the ordered node
sequence (chain traversal order) plus the total block count, immutable
after construction. -/
structure Topology where
  nodes : List NodeDesc
  totalBlocks : Nat
deriving DecidableEq, Repr

/-- Configuration errors reported by topology validation
(startup-fatal ConfigError, §7). -/
inductive ConfigError where
  | coverageGap
  | coverageOverlap
  | malformedRange
  | blockOutOfRange
  | incompleteCoverage
deriving DecidableEq, Repr

/-- The node owns block b iff b lies in its half-open block range. -/
def NodeDesc.owns (n : NodeDesc) (b : Nat) : Bool :=
  n.blockStart ≤ b && b < n.blockEnd

/-- Number of nodes of the sequence owning block b. -/
def countOwners (nodes : List NodeDesc) (b : Nat) : Nat :=
  (nodes.filter (fun n => n.owns b)).length

/-- Modelled from the spec: the coverage check of topology validation —
walking the node sequence in order, each range must begin exactly where the
previous one ended (a later start is a gap, an earlier one an overlap), be
well-formed, stay within total_blocks, and the walk must end exactly at
total_blocks (§4.1, §6). -/
def checkCoverage : List NodeDesc → Nat → Nat → Except ConfigError Unit
  | [], cur, total =>
    if cur = total then .ok () else .error .incompleteCoverage
  | n :: rest, cur, total =>
    if n.blockStart < cur then .error .coverageOverlap
    else if cur < n.blockStart then .error .coverageGap
    else if n.blockEnd < n.blockStart then .error .malformedRange
    else if total < n.blockEnd then .error .blockOutOfRange
    else checkCoverage rest n.blockEnd total

/-- Modelled from the spec: Topology construction — validate full,
non-overlapping coverage of [0, total_blocks) and only then build the
read-only topology value; fail with a ConfigError otherwise (§4.1). -/
def Topology.validate (nodes : List NodeDesc) (total : Nat) :
    Except ConfigError Topology :=
  match checkCoverage nodes 0 total with
  | .error e => .error e
  | .ok _ => .ok { nodes := nodes, totalBlocks := total }

/- ## C8: Context::from_args precision selection (src/cake-core/src/cake/mod.rs, lines 46–53) -/

/-- The dtype argument match at the top of Context::from_args:
Some "f16" => F16, Some "bf16" => BF16, Some "f32" => F32,
Some other => bail, None => F16. -/
def dtypeFromArgs : Option String → Except String DType
  | some s =>
    if s = "f16" then .ok .F16
    else if s = "bf16" then .ok .BF16
    else if s = "f32" then .ok .F32
    else .error ("unsupported dtype " ++ s)
  | none => .ok .F16

/-- Command-line arguments consumed by Context::from_args (the fields it
reads). -/
structure ArgsM where
  dtype : Option String
  cpu : Bool
  device : Option Nat
  topology : String
  model : String
deriving Repr

/-- Results of the external, effectful steps performed by Context::from_args
(device attach, topology load, config parse, cache construction, var builder):
each may fail, and from_args propagates the failure. -/
structure FromArgsEnv where
  getDevice : Except String Nat
  loadTopology : Except String (List Nat)
  loadConfig : Except String Nat
  newCache : Except String Nat
  varBuilder : Except String Nat

/-- The Context value assembled by Context::from_args (the fields the claims
observe: the selected dtype plus the handles produced by the environment). -/
structure ContextM where
  dtype : DType
  device : Nat
  topology : List Nat
  config : Nat
  cache : Nat
  varBuilder : Nat

/-- Context::from_args: selects the dtype first (bailing on an unsupported
string), then performs the effectful steps in source order, propagating the
first failure. -/
def Context.from_args (args : ArgsM) (env : FromArgsEnv) : Except String ContextM :=
  match dtypeFromArgs args.dtype with
  | .error e => .error e
  | .ok dtype =>
  match env.getDevice with
  | .error e => .error e
  | .ok device =>
  match env.loadTopology with
  | .error e => .error e
  | .ok topology =>
  match env.loadConfig with
  | .error e => .error e
  | .ok config =>
  match env.newCache with
  | .error e => .error e
  | .ok cache =>
  match env.varBuilder with
  | .error e => .error e
  | .ok vb =>
    .ok { dtype := dtype, device := device, topology := topology,
          config := config, cache := cache, varBuilder := vb }

/- ## Protocol: tensor payload serialization (module proto declared in mod.rs but absent from src/) -/

/-- Modelled from the spec: a tensor payload — shape (ordered dimension
sizes), element data type, raw contiguous byte buffer (§3; the proto module
is missing from src/). Bytes are Nat values below 256. -/
structure TensorPayload where
  shape : List Nat
  dtype : DType
  data : List Nat
deriving DecidableEq, Repr

/-- Product of the dimension sizes of a shape. -/
def prodShape : List Nat → Nat
  | [] => 1
  | d :: rest => d * prodShape rest

/-- A dimension size serialized as four little-endian bytes. -/
def encodeDim (d : Nat) : List Nat :=
  [d % 256, d / 256 % 256, d / 65536 % 256, d / 16777216 % 256]

/-- Four little-endian bytes read back as a dimension size. -/
def decodeDim (b0 b1 b2 b3 : Nat) : Nat :=
  b0 + 256 * b1 + 65536 * b2 + 16777216 * b3

/-- The one-byte tag of each element data type. -/
def dtypeTag : DType → Nat
  | .F16 => 0
  | .BF16 => 1
  | .F32 => 2

/-- The element data type of a tag byte, if any. -/
def tagDtype : Nat → Option DType
  | 0 => some .F16
  | 1 => some .BF16
  | 2 => some .F32
  | _ => none

/-- The dimension list serialized in order. -/
def encodeDims : List Nat → List Nat
  | [] => []
  | d :: rest => encodeDim d ++ encodeDims rest

/-- Reading back rank many serialized dimensions, returning the dimensions
and the remaining bytes; fails on a short input. -/
def decodeDims : Nat → List Nat → Option (List Nat × List Nat)
  | 0, bytes => some ([], bytes)
  | r + 1, b0 :: b1 :: b2 :: b3 :: rest =>
    match decodeDims r rest with
    | some (dims, remaining) => some (decodeDim b0 b1 b2 b3 :: dims, remaining)
    | none => none
  | _ + 1, _ => none

/-- Protocol-level decode failures (malformed frame or length mismatch, §7). -/
inductive ProtocolError where
  | malformedHeader
  | lengthMismatch
deriving DecidableEq, Repr

/-- Modelled from the spec: tensor payload encoding — a compact header
(dtype tag byte, rank byte, the dimensions) followed by the raw byte buffer
with no padding (§4.2). -/
def encodeTensor (t : TensorPayload) : List Nat :=
  dtypeTag t.dtype :: t.shape.length :: (encodeDims t.shape ++ t.data)

/-- Modelled from the spec: tensor payload decoding — parse the header, then
require the buffer length to equal product(shape) times element size; a
violated buffer is rejected with a ProtocolError, never silently truncated
or padded (§3, §4.2). -/
def decodeTensor : List Nat → Except ProtocolError TensorPayload
  | tag :: rank :: rest =>
    match tagDtype tag with
    | none => .error .malformedHeader
    | some dt =>
      match decodeDims rank rest with
      | none => .error .malformedHeader
      | some (dims, buffer) =>
        if buffer.length = prodShape dims * dt.elemSize then
          .ok { shape := dims, dtype := dt, data := buffer }
        else .error .lengthMismatch
  | _ => .error .malformedHeader

/- ## C9: Forwarder::forward_batch default implementation (mod.rs lines 117–124) -/

/-- Outcome of running a Rust function body that may panic: either a normal
return or a panic (divergence). -/
inductive RustOutcome (α : Type) where
  | ok (a : α)
  | panicked (msg : String)
deriving DecidableEq, Repr

/-- An activation tensor as the embedding sees it: shape and element count
(the batch-forward default never inspects it). -/
structure TensorV where
  shape : List Nat
deriving DecidableEq, Repr

/-- Opaque embedding of the per-node key/value cache handle as passed to
forward_batch (the default body never inspects it). -/
structure CacheHandle where
  id : Nat
deriving DecidableEq, Repr

/-- The default body of Forwarder::forward_batch: `unimplemented!()` —
it panics unconditionally, for every input. -/
def Forwarder.forward_batch_default
    (_x : TensorV) (_batch : List (String × Nat × Nat)) (_cache : CacheHandle) :
    RustOutcome TensorV :=
  .panicked "not implemented"

/- ## C10: the Master-mode token output callback (src/cake-cli/src/main.rs lines 31–38) -/

/-- One observable stdout action performed by the CLI callback. -/
inductive OutAction where
  | write (s : String)
  | flush
deriving DecidableEq, Repr

/-- The token output callback passed to Master::generate in main.rs:
`if data.is_empty() { println!(); } else { print!("{...}") }` followed by
`std::io::stdout().flush()`. `println!()` writes a single newline;
`print!` writes the string verbatim. -/
def tokenCallback (data : String) : List OutAction :=
  (if data.isEmpty then [OutAction.write "\n"] else [OutAction.write data])
    ++ [OutAction.flush]

/-- The text a sequence of stdout actions writes, in order. -/
def printedText : List OutAction → String
  | [] => ""
  | OutAction.write s :: rest => s ++ printedText rest
  | OutAction.flush :: rest => printedText rest

/- ## Protocol messages (module proto declared in mod.rs but absent from src/) -/

/-- Modelled from the spec: the tagged message variants of the wire protocol —
Hello with a topology digest, HelloAck, Forward with activation payload and
position index, ForwardResult, Terminate, Error with a reason code (§3, §6). -/
inductive Message where
  | hello (digest : Nat)
  | helloAck
  | forward (payload : TensorPayload) (posIndex : Nat)
  | forwardResult (payload : TensorPayload)
  | terminate
  | errorMsg (reason : Nat)
deriving DecidableEq, Repr

/- ## C3: cache position lifecycle (Cache usage in master/worker, absent from src/) -/

/-- Modelled from the spec: one node's key/value cache shard, reduced to the
attribute the claim observes — the sequence position counter (§3 Cache). -/
structure KvCache where
  pos : Nat
deriving DecidableEq, Repr

/-- A freshly constructed cache shard. -/
def KvCache.initial : KvCache := { pos := 0 }

/-- Modelled from the spec: a forward pass for one token advances the
local position counter by one (§4.4 Serving, §5 lock-step ordering). -/
def KvCache.advance (c : KvCache) : KvCache := { pos := c.pos + 1 }

/-- Modelled from the spec: resetting a cache shard returns its position
counter to 0 (§4.4 Terminate handling, §4.5 Init). -/
def KvCache.reset (_ : KvCache) : KvCache := { pos := 0 }

/-- Modelled from the spec: processing one token of a session advances every
node of the chain — each generation step makes one full round trip through
all hops before the next starts (§2, §5). -/
def stepChain (chain : List KvCache) : List KvCache :=
  chain.map KvCache.advance

/-- Processing k tokens of a session, one full chain round trip each. -/
def processTokens : Nat → List KvCache → List KvCache
  | 0, chain => chain
  | k + 1, chain => processTokens k (stepChain chain)

/-- Modelled from the spec: the worker-side Terminate handling — every node
resets its local cache (§4.4). -/
def terminateChain (chain : List KvCache) : List KvCache :=
  chain.map KvCache.reset

/-- Modelled from the spec: the orchestrator-side Init of a new session —
locally owned cache shards are reset (§4.5 Init). -/
def initChain (chain : List KvCache) : List KvCache :=
  chain.map KvCache.reset

/- ## C4: handshake digest validation (modules proto/worker absent from src/) -/

/-- Session-fatal handshake and protocol failures (§7). -/
inductive SessionError where
  | topologyMismatch
  | protocolViolation
deriving DecidableEq, Repr

/-- Observable outcome of one inbound connection at a worker: how many
forward passes it executed, whether the connection was closed, and the
session result. -/
structure ConnOutcome where
  forwardsExecuted : Nat
  connClosed : Bool
  result : Except SessionError Unit
deriving Repr

/-- Number of Forward requests in a message sequence. -/
def countForwardMsgs : List Message → Nat
  | [] => 0
  | Message.forward _ _ :: rest => countForwardMsgs rest + 1
  | _ :: rest => countForwardMsgs rest

/-- Modelled from the spec: the receiver side of a connection — the first
message must be Hello carrying the peer topology digest; on a digest
mismatch the handshake fails with TopologyMismatchError and the connection
is closed before any forward pass runs; on a match the session serves the
remaining messages (§4.2 Handshake, §4.4 Handshaking). -/
def handleConnection (localDigest : Nat) (msgs : List Message) : ConnOutcome :=
  match msgs with
  | Message.hello peerDigest :: rest =>
    if peerDigest = localDigest then
      { forwardsExecuted := countForwardMsgs rest, connClosed := false,
        result := .ok () }
    else
      { forwardsExecuted := 0, connClosed := true,
        result := .error .topologyMismatch }
  | _ =>
    { forwardsExecuted := 0, connClosed := true,
      result := .error .protocolViolation }

/- ## C5: frame decoding and length enforcement (module proto absent from src/) -/

/-- Modelled from the spec: a protocol frame — fixed-size header (message
kind tag plus declared payload length) followed by the payload (§4.2). -/
structure Frame where
  kind : Nat
  payload : List Nat
deriving DecidableEq, Repr

/-- Modelled from the spec: frame encoding — kind byte, four-byte
little-endian payload length, payload bytes (§4.2). -/
def encodeFrame (f : Frame) : List Nat :=
  f.kind :: (encodeDim f.payload.length ++ f.payload)

/-- Modelled from the spec: frame decoding — parse the header, then require
the declared payload length to equal the bytes actually received; a mismatch
(including a truncated frame) fails with a ProtocolError (§4.2). -/
def decodeFrame (bytes : List Nat) : Except ProtocolError Frame :=
  match bytes with
  | kind :: b0 :: b1 :: b2 :: b3 :: payload =>
    if payload.length = decodeDim b0 b1 b2 b3 then
      .ok { kind := kind, payload := payload }
    else .error .lengthMismatch
  | _ => .error .malformedHeader

/-- Worker connection phases (§4.4 state machine; Faulted immediately
returns the node to Listening for a new session). -/
inductive WorkerPhase where
  | listening
  | serving
deriving DecidableEq, Repr

/-- Observable outcome of a worker receiving one raw frame: the phase it
ends in, whether the connection was closed, the frame it accepted (if any),
and the protocol failure (if any). -/
structure RecvOutcome where
  phase : WorkerPhase
  connClosed : Bool
  accepted : Option Frame
  failure : Option ProtocolError
deriving DecidableEq, Repr

/-- Modelled from the spec: a worker receiving a raw frame — a decode
failure closes the connection, trusts no part of the frame, and returns the
node to Listening for a new session instead of crashing it (§4.4 Faulted,
§4.2). -/
def receiveFrame (bytes : List Nat) : RecvOutcome :=
  match decodeFrame bytes with
  | .ok f =>
    { phase := .serving, connClosed := false, accepted := some f,
      failure := none }
  | .error e =>
    { phase := .listening, connClosed := true, accepted := none,
      failure := some e }

/- ## C6: client send_and_wait retry policy (module client absent from src/) -/

/-- Outcome the transport produces for one connection attempt. -/
inductive AttemptResult where
  | ok (resp : Message)
  | sockErr
  | timeout
  | protoErr
deriving DecidableEq, Repr

/-- Client-level failures surfaced to the caller (§4.3). -/
inductive ClientError where
  | connectionError
  | timeoutError
  | protocolError
deriving DecidableEq, Repr

/-- The result the client surfaces for a single attempt outcome. -/
def surfaceAttempt : AttemptResult → Except ClientError Message
  | .ok m => .ok m
  | .sockErr => .error .connectionError
  | .timeout => .error .timeoutError
  | .protoErr => .error .protocolError

/-- Modelled from the spec: Client::send_and_wait over a transport giving
the outcome of each successive fresh connection attempt — a hard socket
error (and a timeout, §7) triggers exactly one retry on a fresh connection
before the second outcome is surfaced; a ProtocolError is surfaced
immediately with no retry (§4.3). Returns the surfaced result and the
number of attempts made. -/
def send_and_wait (transport : Nat → AttemptResult) :
    Except ClientError Message × Nat :=
  match transport 0 with
  | .ok m => (.ok m, 1)
  | .protoErr => (.error .protocolError, 1)
  | .sockErr => (surfaceAttempt (transport 1), 2)
  | .timeout => (surfaceAttempt (transport 1), 2)

/- ## C7: generation-loop termination and Terminate fan-out (module master absent from src/) -/

/-- One observable event of a generation session: a Forward round trip for
one step, or a Terminate sent to a worker address. -/
inductive TraceEvent where
  | forwardStep (step : Nat)
  | terminateTo (address : String)
deriving DecidableEq, Repr

/-- Modelled from the spec: the Generating loop — one Forward round trip per
output token, stopping when the sampled token is end-of-sequence or when the
remaining token budget is exhausted (§4.5 Generating). -/
def genLoop (isEos : Nat → Bool) : Nat → Nat → List TraceEvent
  | 0, _ => []
  | remaining + 1, step =>
    TraceEvent.forwardStep step ::
      (if isEos step then [] else genLoop isEos remaining (step + 1))

/-- Modelled from the spec: one full generation session — run the Generating
loop with the configured maximum token count, then transition to Done,
sending Terminate down the chain to release worker cache state (§4.5). -/
def runSession (workers : List String) (maxNewTokens : Nat)
    (isEos : Nat → Bool) : List TraceEvent :=
  genLoop isEos maxNewTokens 0 ++ workers.map TraceEvent.terminateTo

end Cake

/- ## Theorems -/

namespace Cake

/-- Unfolding countOwners over a cons cell. -/
lemma countOwners_cons (n : NodeDesc) (rest : List NodeDesc) (b : Nat) :
    countOwners (n :: rest) b =
      (if n.owns b then 1 else 0) + countOwners rest b := by
  simp only [countOwners, List.filter_cons]
  split_ifs <;> simp [Nat.add_comm]

/-- A successful coverage check starting at cur means every block of
[cur, total) is owned by exactly one node of the sequence and no block
outside it is owned by any. -/
lemma checkCoverage_countOwners (nodes : List NodeDesc) :
    ∀ (cur total : Nat), checkCoverage nodes cur total = .ok () →
    ∀ b, countOwners nodes b = if cur ≤ b ∧ b < total then 1 else 0 := by
  induction nodes with
  | nil =>
    intro cur total h b
    simp only [checkCoverage] at h
    split_ifs at h with hct
    subst hct
    simp only [countOwners, List.filter_nil, List.length_nil]
    split_ifs with hb
    · omega
    · rfl
  | cons n rest ih =>
    intro cur total h b
    simp only [checkCoverage] at h
    split_ifs at h with h1 h2 h3 h4
    have hstart : n.blockStart = cur := by omega
    have hend : n.blockStart ≤ n.blockEnd := by omega
    have hin : n.blockEnd ≤ total := by omega
    have hrest := ih n.blockEnd total h b
    rw [countOwners_cons, hrest]
    simp only [NodeDesc.owns, hstart, Bool.and_eq_true, decide_eq_true_eq]
    split_ifs <;> simp_all <;> omega

/-- A successful coverage check keeps every owned block inside [cur, total). -/
lemma checkCoverage_owns_bounds (nodes : List NodeDesc) :
    ∀ (cur total : Nat), checkCoverage nodes cur total = .ok () →
    ∀ m ∈ nodes, ∀ b, m.owns b = true → cur ≤ b ∧ b < total := by
  induction nodes with
  | nil => intro cur total _ m hm; exact absurd hm (List.not_mem_nil m)
  | cons n rest ih =>
    intro cur total h m hm b hb
    simp only [checkCoverage] at h
    split_ifs at h with h1 h2 h3 h4
    have hstart : n.blockStart = cur := by omega
    rcases List.mem_cons.mp hm with hm | hm
    · subst hm
      simp only [NodeDesc.owns, Bool.and_eq_true, decide_eq_true_eq] at hb
      omega
    · have := ih n.blockEnd total h m hm b hb
      omega

/-- Accepted topologies have pairwise disjoint node block ranges. -/
lemma checkCoverage_pairwise_disjoint (nodes : List NodeDesc) :
    ∀ (cur total : Nat), checkCoverage nodes cur total = .ok () →
    nodes.Pairwise (fun n m => ∀ b, ¬(n.owns b = true ∧ m.owns b = true)) := by
  induction nodes with
  | nil => intro cur total _; exact List.Pairwise.nil
  | cons n rest ih =>
    intro cur total h
    simp only [checkCoverage] at h
    split_ifs at h with h1 h2 h3 h4
    refine List.Pairwise.cons ?_ (ih n.blockEnd total h)
    intro m hm b ⟨hnb, hmb⟩
    have hmbound := checkCoverage_owns_bounds rest n.blockEnd total h m hm b hmb
    simp only [NodeDesc.owns, Bool.and_eq_true, decide_eq_true_eq] at hnb
    omega

/-- C1: every accepted topology configuration partitions [0, total_blocks)
exactly — each block below total_blocks has exactly one owner, no node owns
a block at or beyond total_blocks, and the ranges are pairwise disjoint —
while every configuration violating this (a gap, an overlap, or an
out-of-range block) is rejected with a ConfigError and no topology value is
constructed. -/
theorem topology_validate_partitions (nodes : List NodeDesc) (total : Nat) :
    (∀ t, Topology.validate nodes total = .ok t →
      t.nodes = nodes ∧ t.totalBlocks = total
      ∧ (∀ b, countOwners nodes b = if b < total then 1 else 0)
      ∧ nodes.Pairwise (fun n m => ∀ b, ¬(n.owns b = true ∧ m.owns b = true)))
    ∧ ((¬ ∀ b, countOwners nodes b = if b < total then 1 else 0) →
      ∃ e, Topology.validate nodes total = .error e) := by
  constructor
  · intro t hok
    simp only [Topology.validate] at hok
    rcases hchk : checkCoverage nodes 0 total with e | u <;> rw [hchk] at hok
    · exact absurd hok (by simp)
    rcases u
    simp only [Except.ok.injEq] at hok
    subst hok
    refine ⟨rfl, rfl, ?_, checkCoverage_pairwise_disjoint nodes 0 total hchk⟩
    intro b
    have := checkCoverage_countOwners nodes 0 total hchk b
    simpa using this
  · intro hbad
    rcases hres : Topology.validate nodes total with e | t
    · exact ⟨e, rfl⟩
    exfalso
    apply hbad
    intro b
    simp only [Topology.validate] at hres
    rcases hchk : checkCoverage nodes 0 total with e | u <;> rw [hchk] at hres
    · exact absurd hres (by simp)
    rcases u
    have := checkCoverage_countOwners nodes 0 total hchk b
    simpa using this

/-- C1 witness: the theorem applied to a concrete valid two-node split of
8 blocks (partition holds) and to a concrete configuration with a gap
(rejected with a ConfigError). -/
theorem topology_validate_partitions_witness :
    (∀ b, countOwners
      [{ address := "host-a", blockStart := 0, blockEnd := 4, deviceKind := "cpu" },
       { address := "host-b", blockStart := 4, blockEnd := 8, deviceKind := "cuda" }] b
      = if b < 8 then 1 else 0)
    ∧ (∃ e, Topology.validate
      [{ address := "host-a", blockStart := 0, blockEnd := 3, deviceKind := "cpu" },
       { address := "host-b", blockStart := 4, blockEnd := 8, deviceKind := "cuda" }] 8
      = .error e) :=
  ⟨((topology_validate_partitions
      [{ address := "host-a", blockStart := 0, blockEnd := 4, deviceKind := "cpu" },
       { address := "host-b", blockStart := 4, blockEnd := 8, deviceKind := "cuda" }] 8).1
      { nodes :=
          [{ address := "host-a", blockStart := 0, blockEnd := 4, deviceKind := "cpu" },
           { address := "host-b", blockStart := 4, blockEnd := 8, deviceKind := "cuda" }],
        totalBlocks := 8 } rfl).2.2.1,
   (topology_validate_partitions
      [{ address := "host-a", blockStart := 0, blockEnd := 3, deviceKind := "cpu" },
       { address := "host-b", blockStart := 4, blockEnd := 8, deviceKind := "cuda" }] 8).2
      (fun h => absurd (h 3) (by decide))⟩

/-- Reassembling the four little-endian bytes of a dimension below 2^32
returns the dimension. -/
lemma decodeDim_encodeDim (d : Nat) (h : d < 4294967296) :
    decodeDim (d % 256) (d / 256 % 256) (d / 65536 % 256) (d / 16777216 % 256) = d := by
  simp only [decodeDim]
  omega

/-- Reading back an encoded dimension list recovers it and leaves the tail
untouched, for dimensions below 2^32. -/
lemma decodeDims_encodeDims (s : List Nat) (tail : List Nat)
    (h : ∀ d ∈ s, d < 4294967296) :
    decodeDims s.length (encodeDims s ++ tail) = some (s, tail) := by
  induction s with
  | nil => simp [decodeDims, encodeDims]
  | cons d rest ih =>
    have hd : d < 4294967296 := h d (List.mem_cons_self d rest)
    have hrest : ∀ x ∈ rest, x < 4294967296 :=
      fun x hx => h x (List.mem_cons_of_mem d hx)
    simp [encodeDims, encodeDim, decodeDims, ih hrest, decodeDim_encodeDim d hd]

/-- The dtype tag decodes back to the dtype it encodes. -/
lemma tagDtype_dtypeTag (dt : DType) : tagDtype (dtypeTag dt) = some dt := by
  cases dt <;> rfl

/-- C2: tensor serialization is a round-trip — decoding the encoding of any
tensor payload of rank 1 through 4 (any of the element data types) whose
buffer length equals product(shape) times element size yields the original
payload with identical shape, dtype and byte content, while a payload whose
buffer length differs is rejected by decoding with a ProtocolError, never
silently truncated or padded. -/
theorem tensor_serialization_roundtrip (t : TensorPayload)
    (_hrank1 : 1 ≤ t.shape.length) (_hrank4 : t.shape.length ≤ 4)
    (hdims : ∀ d ∈ t.shape, d < 4294967296) :
    (t.data.length = prodShape t.shape * t.dtype.elemSize →
      decodeTensor (encodeTensor t) = .ok t)
    ∧ (t.data.length ≠ prodShape t.shape * t.dtype.elemSize →
      decodeTensor (encodeTensor t) = .error .lengthMismatch) := by
  have hdec : decodeTensor (encodeTensor t) =
      if t.data.length = prodShape t.shape * t.dtype.elemSize then
        .ok { shape := t.shape, dtype := t.dtype, data := t.data }
      else .error .lengthMismatch := by
    simp only [encodeTensor, decodeTensor, tagDtype_dtypeTag,
      decodeDims_encodeDims t.shape t.data hdims]
  constructor
  · intro hlen
    rw [hdec, if_pos hlen]
  · intro hlen
    rw [hdec, if_neg hlen]

/-- C2 witness: the theorem applied to a concrete rank-2 F32 payload with a
matching buffer (round-trips) and a concrete rank-1 F16 payload with a
one-byte buffer where two bytes are required (rejected). -/
theorem tensor_serialization_roundtrip_witness :
    decodeTensor (encodeTensor
        { shape := [2, 1], dtype := .F32, data := [1, 2, 3, 4, 5, 6, 7, 8] })
      = .ok { shape := [2, 1], dtype := .F32, data := [1, 2, 3, 4, 5, 6, 7, 8] }
    ∧ decodeTensor (encodeTensor { shape := [1], dtype := .F16, data := [9] })
      = .error .lengthMismatch :=
  ⟨(tensor_serialization_roundtrip
      { shape := [2, 1], dtype := .F32, data := [1, 2, 3, 4, 5, 6, 7, 8] }
      (by decide) (by decide) (by decide)).1 (by decide),
   (tensor_serialization_roundtrip { shape := [1], dtype := .F16, data := [9] }
      (by decide) (by decide) (by decide)).2 (by decide)⟩

/-- C8: Context::from_args validates the precision selection at startup —
every dtype string other than "f16", "bf16", "f32" makes it fail (for every
environment), the three supported strings map to F16, BF16, F32 respectively,
and a missing dtype argument defaults to F16 (when the effectful steps
succeed, the constructed context carries exactly the selected dtype). -/
theorem from_args_dtype_validation :
    (∀ (args : ArgsM) (env : FromArgsEnv) (s : String),
      args.dtype = some s → s ≠ "f16" → s ≠ "bf16" → s ≠ "f32" →
      ∃ e, Context.from_args args env = .error e)
    ∧ dtypeFromArgs (some "f16") = .ok .F16
    ∧ dtypeFromArgs (some "bf16") = .ok .BF16
    ∧ dtypeFromArgs (some "f32") = .ok .F32
    ∧ dtypeFromArgs none = .ok .F16
    ∧ (∀ (args : ArgsM) (env : FromArgsEnv) (ctx : ContextM) (d : DType),
      dtypeFromArgs args.dtype = .ok d →
      Context.from_args args env = .ok ctx → ctx.dtype = d) := by
  refine ⟨?_, rfl, ?_, ?_, rfl, ?_⟩
  · intro args env s hs h16 hbf h32
    refine ⟨"unsupported dtype " ++ s, ?_⟩
    simp only [Context.from_args, hs, dtypeFromArgs, if_neg h16, if_neg hbf, if_neg h32]
  · simp [dtypeFromArgs]
  · simp [dtypeFromArgs]
  · intro args env ctx d hd hok
    simp only [Context.from_args, hd] at hok
    rcases henv : env.getDevice with e | dev <;> rw [henv] at hok
    · exact absurd hok (by simp)
    rcases ht : env.loadTopology with e | t <;> rw [ht] at hok
    · exact absurd hok (by simp)
    rcases hc : env.loadConfig with e | c <;> rw [hc] at hok
    · exact absurd hok (by simp)
    rcases hk : env.newCache with e | k <;> rw [hk] at hok
    · exact absurd hok (by simp)
    rcases hv : env.varBuilder with e | v <;> rw [hv] at hok
    · exact absurd hok (by simp)
    simp only [Except.ok.injEq] at hok
    rw [← hok]

/-- C8 witness: the theorem applied at dtype string "f64" with a concrete
environment, and at the defaulting case. -/
theorem from_args_dtype_validation_witness :
    ∃ e, Context.from_args
      { dtype := some "f64", cpu := false, device := none,
        topology := "topology.yml", model := "llama3" }
      { getDevice := .ok 0, loadTopology := .ok [], loadConfig := .ok 0,
        newCache := .ok 0, varBuilder := .ok 0 } = .error e :=
  from_args_dtype_validation.1
    { dtype := some "f64", cpu := false, device := none,
      topology := "topology.yml", model := "llama3" }
    { getDevice := .ok 0, loadTopology := .ok [], loadConfig := .ok 0,
      newCache := .ok 0, varBuilder := .ok 0 }
    "f64" rfl (by decide) (by decide) (by decide)

/-- C9: the default forward_batch never returns a value — for every
activation tensor, batch list and cache it panics via unimplemented!(),
so no caller of the unoverridden path obtains a result. -/
theorem forward_batch_default_diverges
    (x : TensorV) (batch : List (String × Nat × Nat)) (cache : CacheHandle) :
    Forwarder.forward_batch_default x batch cache = .panicked "not implemented"
    ∧ ∀ t : TensorV, Forwarder.forward_batch_default x batch cache ≠ .ok t := by
  exact ⟨rfl, fun t h => by simp [Forwarder.forward_batch_default] at h⟩

/-- Processing k tokens advances every position counter by k. -/
lemma processTokens_eq_map (k : Nat) :
    ∀ chain : List KvCache,
      processTokens k chain = chain.map (fun c => { pos := c.pos + k }) := by
  induction k with
  | zero =>
    intro chain
    simp only [processTokens]
    have : (fun c : KvCache => ({ pos := c.pos + 0 } : KvCache)) = fun c => c := by
      funext c; rfl
    rw [this]
    exact (List.map_id chain).symm
  | succ k ih =>
    intro chain
    simp only [processTokens, stepChain, ih, List.map_map]
    congr 1
    funext c
    simp only [Function.comp, KvCache.advance]
    congr 1
    omega

/-- C3: for every chain whose cache shards start a session at position 0,
after the session has processed k tokens every node's position counter
equals k, and resetting via Terminate (worker side) or Init (orchestrator
side) returns every counter to 0. -/
theorem cache_position_lockstep (chain : List KvCache) (k : Nat)
    (hinit : ∀ c ∈ chain, c.pos = 0) :
    processTokens k chain = List.replicate chain.length { pos := k }
    ∧ terminateChain (processTokens k chain) =
        List.replicate chain.length { pos := 0 }
    ∧ initChain (processTokens k chain) =
        List.replicate chain.length { pos := 0 } := by
  have hmap := processTokens_eq_map k chain
  have hproc : processTokens k chain = List.replicate chain.length { pos := k } := by
    rw [hmap, List.eq_replicate_iff]
    refine ⟨by simp, ?_⟩
    intro b hb
    rcases List.mem_map.mp hb with ⟨c, hc, rfl⟩
    rw [hinit c hc]
    congr 1
    omega
  refine ⟨hproc, ?_, ?_⟩ <;>
    simp [terminateChain, initChain, hproc, KvCache.reset, List.map_replicate]

/-- C3 witness: the theorem applied to a two-node chain of fresh caches and
k = 3 tokens — both counters reach 3 and both resets return them to 0. -/
theorem cache_position_lockstep_witness :
    processTokens 3 [KvCache.initial, KvCache.initial] =
      List.replicate 2 { pos := 3 }
    ∧ terminateChain (processTokens 3 [KvCache.initial, KvCache.initial]) =
        List.replicate 2 { pos := 0 }
    ∧ initChain (processTokens 3 [KvCache.initial, KvCache.initial]) =
        List.replicate 2 { pos := 0 } :=
  cache_position_lockstep [KvCache.initial, KvCache.initial] 3 (by decide)

/-- C4: every connecting peer whose topology digest differs from the local
one fails the handshake with TopologyMismatchError and has its connection
closed with zero forward passes executed, whatever messages follow the
Hello. -/
theorem handshake_digest_mismatch (localDigest peerDigest : Nat)
    (rest : List Message) (hne : peerDigest ≠ localDigest) :
    handleConnection localDigest (Message.hello peerDigest :: rest) =
      { forwardsExecuted := 0, connClosed := true,
        result := .error .topologyMismatch } := by
  simp [handleConnection, hne]

/-- C4 witness: the theorem applied to local digest 7, peer digest 9, and a
pending Forward request that is consequently never executed. -/
theorem handshake_digest_mismatch_witness :
    handleConnection 7
      [Message.hello 9,
       Message.forward { shape := [1], dtype := .F16, data := [0, 0] } 0] =
      { forwardsExecuted := 0, connClosed := true,
        result := .error .topologyMismatch } :=
  handshake_digest_mismatch 7 9
    [Message.forward { shape := [1], dtype := .F16, data := [0, 0] } 0]
    (by decide)

/-- C5: every received frame whose declared payload length differs from the
bytes actually received (truncation included) is rejected by decoding with a
ProtocolError, and the receiving node closes the connection, trusts no part
of the frame, and returns to Listening instead of crashing. -/
theorem frame_length_mismatch_rejected (kind b0 b1 b2 b3 : Nat)
    (payload : List Nat) (hmis : payload.length ≠ decodeDim b0 b1 b2 b3) :
    decodeFrame (kind :: b0 :: b1 :: b2 :: b3 :: payload) =
      .error .lengthMismatch
    ∧ receiveFrame (kind :: b0 :: b1 :: b2 :: b3 :: payload) =
      { phase := .listening, connClosed := true, accepted := none,
        failure := some .lengthMismatch } := by
  have hdec : decodeFrame (kind :: b0 :: b1 :: b2 :: b3 :: payload) =
      .error .lengthMismatch := by
    simp [decodeFrame, hmis]
  exact ⟨hdec, by simp [receiveFrame, hdec]⟩

/-- C5 witness: the theorem applied to a deliberately truncated frame that
declares 4 payload bytes but carries only 2. -/
theorem frame_length_mismatch_rejected_witness :
    decodeFrame [2, 4, 0, 0, 0, 7, 7] = .error .lengthMismatch
    ∧ receiveFrame [2, 4, 0, 0, 0, 7, 7] =
      { phase := .listening, connClosed := true, accepted := none,
        failure := some .lengthMismatch } :=
  frame_length_mismatch_rejected 2 4 0 0 0 [7, 7] (by decide)

/-- C6: Client::send_and_wait retries exactly once with a fresh connection
after a hard socket error, surfacing the second attempt's outcome; a
ProtocolError is never retried and is surfaced immediately; and no call ever
makes more than two attempts. -/
theorem client_retry_policy (transport : Nat → AttemptResult) :
    (transport 0 = .sockErr →
      send_and_wait transport = (surfaceAttempt (transport 1), 2))
    ∧ (transport 0 = .protoErr →
      send_and_wait transport = (.error .protocolError, 1))
    ∧ (send_and_wait transport).2 ≤ 2 := by
  refine ⟨?_, ?_, ?_⟩
  · intro h; simp [send_and_wait, h]
  · intro h; simp [send_and_wait, h]
  · rcases h : transport 0 <;> simp [send_and_wait, h]

/-- C6 witness: the theorem applied to a transport whose first attempt hits
a hard socket error and whose retry succeeds (two attempts, response
surfaced), and to a transport answering with a malformed frame (one attempt,
ProtocolError surfaced). -/
theorem client_retry_policy_witness :
    send_and_wait
        (fun n => if n = 0 then AttemptResult.sockErr
                  else AttemptResult.ok Message.helloAck) =
      (.ok Message.helloAck, 2)
    ∧ send_and_wait (fun _ => AttemptResult.protoErr) =
      (.error .protocolError, 1) :=
  ⟨(client_retry_policy
      (fun n => if n = 0 then AttemptResult.sockErr
                else AttemptResult.ok Message.helloAck)).1 rfl,
   (client_retry_policy (fun _ => AttemptResult.protoErr)).2.1 rfl⟩

/-- The Generating loop emits no Terminate event. -/
lemma genLoop_no_terminate (isEos : Nat → Bool) :
    ∀ (remaining step : Nat) (w : String),
      TraceEvent.terminateTo w ∉ genLoop isEos remaining step := by
  intro remaining
  induction remaining with
  | zero => intro step w h; simp [genLoop] at h
  | succ r ih =>
    intro step w h
    simp only [genLoop, List.mem_cons] at h
    rcases h with h | h
    · exact TraceEvent.noConfusion h
    · split_ifs at h with he
      · simp at h
      · exact ih (step + 1) w h

/-- A session that never samples end-of-sequence runs the loop for exactly
the remaining token budget. -/
lemma genLoop_length_eq (isEos : Nat → Bool) (hfull : ∀ s, isEos s = false) :
    ∀ (remaining step : Nat),
      (genLoop isEos remaining step).length = remaining := by
  intro remaining
  induction remaining with
  | zero => intro step; rfl
  | succ r ih =>
    intro step
    simp [genLoop, hfull step, ih (step + 1)]

/-- Counting a Terminate event over the fan-out to the worker list counts
the worker's occurrences. -/
lemma count_map_terminateTo (workers : List String) (w : String) :
    (workers.map TraceEvent.terminateTo).count (TraceEvent.terminateTo w) =
      workers.count w := by
  induction workers with
  | nil => rfl
  | cons a rest ih =>
    simp only [List.map_cons, List.count_cons, ih]
    by_cases h : a = w <;> simp [h]

/-- C7: a generation session that reaches the configured maximum token count
(no end-of-sequence sampled) terminates its loop after exactly that many
steps, and the session trace carries exactly one Terminate for every worker
of the chain — no worker receives zero or more than one. -/
theorem session_terminate_exactly_once (workers : List String)
    (maxNewTokens : Nat) (isEos : Nat → Bool) (hnodup : workers.Nodup)
    (hfull : ∀ s, isEos s = false) :
    (∀ w ∈ workers,
      (runSession workers maxNewTokens isEos).count (TraceEvent.terminateTo w)
        = 1)
    ∧ (genLoop isEos maxNewTokens 0).length = maxNewTokens := by
  refine ⟨?_, genLoop_length_eq isEos hfull maxNewTokens 0⟩
  intro w hw
  have hzero :
      (genLoop isEos maxNewTokens 0).count (TraceEvent.terminateTo w) = 0 :=
    List.count_eq_zero.mpr (genLoop_no_terminate isEos maxNewTokens 0 w)
  rw [runSession, List.count_append, hzero, count_map_terminateTo,
    List.count_eq_one_of_mem hnodup hw]

/-- C7 witness: the theorem applied to a two-worker chain with a three-token
budget and no end-of-sequence — worker "w1" receives exactly one Terminate
and the loop runs exactly three steps. -/
theorem session_terminate_exactly_once_witness :
    (runSession ["w1", "w2"] 3 (fun _ => false)).count
        (TraceEvent.terminateTo "w1") = 1
    ∧ (genLoop (fun _ => false) 3 0).length = 3 :=
  ⟨(session_terminate_exactly_once ["w1", "w2"] 3 (fun _ => false)
      (by decide) (fun _ => rfl)).1 "w1" (by decide),
   (session_terminate_exactly_once ["w1", "w2"] 3 (fun _ => false)
      (by decide) (fun _ => rfl)).2⟩

/-- C9 witness: the default forward_batch evaluated at a concrete
activation, batch list and cache panics. -/
theorem forward_batch_default_diverges_witness :
    Forwarder.forward_batch_default { shape := [1] } [] { id := 0 } =
      .panicked "not implemented" :=
  (forward_batch_default_diverges { shape := [1] } [] { id := 0 }).1

/-- C10: the Master-mode token callback writes exactly one newline when
invoked with the empty string, writes the string verbatim (no trailing
newline appended) when invoked with a non-empty string, and its final
action is always a flush. -/
theorem master_callback_output (data : String) :
    (data.isEmpty = true → printedText (tokenCallback data) = "\n")
    ∧ (data.isEmpty = false → printedText (tokenCallback data) = data)
    ∧ (tokenCallback data).getLast? = some OutAction.flush := by
  refine ⟨?_, ?_, ?_⟩
  · intro h; simp [tokenCallback, h, printedText]
  · intro h; simp [tokenCallback, h, printedText]
  · by_cases h : data.isEmpty <;> simp [tokenCallback, h]

/-- C10 witness: the callback evaluated at "" and at "token". -/
theorem master_callback_output_witness :
    printedText (tokenCallback "") = "\n"
    ∧ printedText (tokenCallback "token") = "token" :=
  ⟨(master_callback_output "").1 rfl, (master_callback_output "token").2.1 rfl⟩

end Cake
